import Mathlib

/-!
Shallow embedding of the scheduled-post coordination core of the
`my-nostr-app` repository: the publishing-lock manager
(`src/hooks/usePublishingLock.ts`), the scheduler loop's candidate filter
and error classification (`useSchedulerService`), the publish workflow
(`src/hooks/usePublishScheduledPost.ts`), the status updater
(`useUpdateScheduledPostStatus`), and the record store
(`useScheduledPosts` / `validateScheduledPost` / `parseScheduledPost`).

Times are modelled as `Int` milliseconds (JavaScript `Date.now()` values);
an invalid `Date` (`NaN` time value) is modelled as `none : Option Int`.
JavaScript string truthiness (`undefined`/`""` falsy) is modelled by
`jsTruthyS`.  `localStorage` contents are passed explicitly as lists.
-/

/-- JavaScript truthiness of a `string | undefined | null` value:
`undefined`/`null` (`none`) and the empty string are falsy. -/
def jsTruthyS : Option String → Bool
  | none => false
  | some s => s ≠ ""

/-- Helper for `strIncludes`: does `sub` occur as a contiguous run inside `l`?
Mirrors JavaScript `String.prototype.includes`. -/
def listIncludes (sub : List Char) : List Char → Bool
  | [] => sub.isEmpty
  | c :: rest => sub.isPrefixOf (c :: rest) || listIncludes sub rest

/-- JavaScript `s.includes(sub)`. -/
def strIncludes (s sub : String) : Bool :=
  listIncludes sub.data s.data

/-- Decimal digit value of a character, `none` if not a digit. -/
def decDigitVal (c : Char) : Option Nat :=
  if '0' ≤ c ∧ c ≤ '9' then some (c.toNat - '0'.toNat) else none

/-- Hexadecimal digit value of a character, `none` if not a hex digit. -/
def hexDigitVal (c : Char) : Option Nat :=
  if '0' ≤ c ∧ c ≤ '9' then some (c.toNat - '0'.toNat)
  else if 'a' ≤ c ∧ c ≤ 'f' then some (c.toNat - 'a'.toNat + 10)
  else if 'A' ≤ c ∧ c ≤ 'F' then some (c.toNat - 'A'.toNat + 10)
  else none

/-- Parse the longest prefix of digits (for the given digit-value function);
`none` when there is no leading digit, matching `parseInt` returning `NaN`. -/
def parseDigits (base : Nat) (val : Char → Option Nat) (cs : List Char) : Option Nat :=
  let ds := cs.takeWhile (fun c => (val c).isSome)
  if ds.isEmpty then none
  else some (ds.foldl (fun acc c => acc * base + ((val c).getD 0)) 0)

/-- JavaScript `parseInt(s)` (no radix argument): skip leading whitespace,
optional sign, `0x`/`0X` hexadecimal prefix, then the longest digit prefix;
`none` models `NaN`. -/
def jsParseInt (s : String) : Option Int :=
  let cs := s.data.dropWhile (fun c => c == ' ' || c == '\t' || c == '\n' || c == '\r')
  let signed : Bool × List Char :=
    match cs with
    | '-' :: r => (true, r)
    | '+' :: r => (false, r)
    | _ => (false, cs)
  let mag : Option Nat :=
    match signed.2 with
    | '0' :: 'x' :: r => parseDigits 16 hexDigitVal r
    | '0' :: 'X' :: r => parseDigits 16 hexDigitVal r
    | l => parseDigits 10 decDigitVal l
  mag.map (fun n => if signed.1 then -(n : Int) else (n : Int))

/-- Render an `Option Int` the way JavaScript renders the number in a
template/`toString` position: `none` (`NaN`) prints as `"NaN"`. -/
def jsIntString : Option Int → String
  | none => "NaN"
  | some k => toString k

/-- `Math.floor(date.getTime() / 1000).toString()` for a possibly invalid
date (milliseconds); `NaN` floors to `NaN`. -/
def jsFloorSecString : Option Int → String
  | none => "NaN"
  | some ms => toString (Int.fdiv ms 1000)

/-- JavaScript `dateLikeMs <= nowMs`: comparisons against a `NaN` time value
are false. -/
def jsDateLe (d : Option Int) (bound : Int) : Bool :=
  match d with
  | none => false
  | some t => t ≤ bound

/-- JavaScript `dateLikeMs >= boundMs`: comparisons against a `NaN` time
value are false. -/
def jsDateGe (d : Option Int) (bound : Int) : Bool :=
  match d with
  | none => false
  | some t => bound ≤ t

/-! ## Lock & published-cache manager (`usePublishingLock.ts`) -/

/-- `LOCK_TIMEOUT = 5 * 60 * 1000` milliseconds. -/
def LOCK_TIMEOUT : Int := 5 * 60 * 1000

/-- One entry of the `nostr:publishing-locks` storage key. -/
structure PublishingLock where
  postId : String
  timestamp : Int
  sessionId : String
  pubkey : String
deriving DecidableEq, Repr

/-- One entry of the `nostr:published-posts` storage key. -/
structure PublishedPost where
  postId : String
  publishedEventId : String
  timestamp : Int
  pubkey : String
deriving DecidableEq, Repr

/-- `PublishingLockManager.isAlreadyPublished(postId, pubkey)`:
first cache entry for the pair, mapped to its published event id. -/
def isAlreadyPublished (published : List PublishedPost) (postId pubkey : String) : Option String :=
  (published.find? (fun p => p.postId == postId && p.pubkey == pubkey)).map
    (fun p => p.publishedEventId)

/-- The comparator `(a, b) => b.timestamp - a.timestamp` used by
`markAsPublished`: `a` may come before `b` iff `b.timestamp ≤ a.timestamp`. -/
def tsDescRel (a b : PublishedPost) : Prop := b.timestamp ≤ a.timestamp

instance : DecidableRel tsDescRel := fun a b => Int.decLe b.timestamp a.timestamp

/-- `Array.prototype.sort` with the descending-timestamp comparator: a stable
sort, modelled by Mathlib's stable `insertionSort`. -/
def sortTsDesc (l : List PublishedPost) : List PublishedPost :=
  l.insertionSort tsDescRel

/-- `PublishingLockManager.markAsPublished(postId, publishedEventId, pubkey)`
executed at time `now` (`Date.now()`): drop any entry for the pair, append
the new entry, and if the list now exceeds 1000 entries sort it by
descending timestamp and keep the first 1000 (`splice(1000)`). -/
def markAsPublished (published : List PublishedPost)
    (postId publishedEventId pubkey : String) (now : Int) : List PublishedPost :=
  let filtered := published.filter (fun p => !(p.postId == postId && p.pubkey == pubkey))
  let pushed := filtered ++ [⟨postId, publishedEventId, now, pubkey⟩]
  if pushed.length > 1000 then (sortTsDesc pushed).take 1000 else pushed

/-- `PublishingLockManager.acquireLock(postId, pubkey)` by session `sid` at
time `now`.  Returns the boolean result and the stored lock list afterwards;
on failure the storage is left untouched (the code returns before
`setLocks`). -/
def acquireLock (locks : List PublishingLock) (sid postId pubkey : String) (now : Int) :
    Bool × List PublishingLock :=
  let validLocks := locks.filter (fun l => !(now - l.timestamp > LOCK_TIMEOUT : Bool))
  match validLocks.find? (fun l => l.postId == postId && l.pubkey == pubkey && l.sessionId != sid) with
  | some _ => (false, locks)
  | none =>
    let filteredLocks := validLocks.filter
      (fun l => !(l.postId == postId && l.pubkey == pubkey && l.sessionId == sid))
    (true, filteredLocks ++ [⟨postId, now, sid, pubkey⟩])

/-- `PublishingLockManager.releaseLock(postId, pubkey)` by session `sid`. -/
def releaseLock (locks : List PublishingLock) (sid postId pubkey : String) :
    List PublishingLock :=
  locks.filter (fun l => !(l.postId == postId && l.pubkey == pubkey && l.sessionId == sid))

/-- `PublishingLockManager.ownsLock(postId, pubkey)` by session `sid` at time
`now`; releases (and reports false) when the session's lock is expired. -/
def ownsLock (locks : List PublishingLock) (sid postId pubkey : String) (now : Int) :
    Bool × List PublishingLock :=
  match locks.find? (fun l => l.postId == postId && l.pubkey == pubkey && l.sessionId == sid) with
  | none => (false, locks)
  | some l =>
    if now - l.timestamp > LOCK_TIMEOUT then (false, releaseLock locks sid postId pubkey)
    else (true, locks)

/-- `PublishingLockManager.cleanup()` at time `now`: drop expired locks and
cache entries older than 24 hours. -/
def cleanup (locks : List PublishingLock) (published : List PublishedPost) (now : Int) :
    List PublishingLock × List PublishedPost :=
  (locks.filter (fun l => now - l.timestamp ≤ LOCK_TIMEOUT),
   published.filter (fun p => now - p.timestamp ≤ 24 * 60 * 60 * 1000))

/-- Apply `acquireLock` for each session in `sids` in order against the shared
lock storage, all at the same instant `now`; returns the list of boolean
results together with the final storage. -/
def acquireAll (locks : List PublishingLock) (sids : List String)
    (postId pubkey : String) (now : Int) : List Bool × List PublishingLock :=
  match sids with
  | [] => ([], locks)
  | s :: rest =>
    let r := acquireLock locks s postId pubkey now
    let rec' := acquireAll r.2 rest postId pubkey now
    (r.1 :: rec'.1, rec'.2)

/-! ## Record store (`useScheduledPosts.ts`) -/

/-- `SCHEDULED_POST_KIND = 36611`. -/
def SCHEDULED_POST_KIND : Int := 36611

/-- A raw Nostr event as fetched from the relay query layer. -/
structure NostrEvent where
  id : String
  pubkey : String
  created_at : Int
  kind : Int
  tags : List (List String)
  content : String
deriving DecidableEq, Repr

/-- `event.tags.find(([name]) => name === key)?.[1]`: the second element of
the first tag whose first element is `key`. -/
def tagValue (e : NostrEvent) (key : String) : Option String :=
  (e.tags.find? (fun t => t.head? == some key)).bind (fun t => t[1]?)

/-- The parsed `ScheduledPost` entity.  `scheduledAt` is the date value in
milliseconds (`none` = invalid date); `postKind` is `none` when `parseInt`
produced `NaN`; `status` is the raw status tag string (the TypeScript cast
does not restrict the runtime value). -/
structure ScheduledPost where
  id : String
  d : String
  content : String
  scheduledAt : Option Int
  postKind : Option Int
  title : Option String
  status : String
  publishedEventId : Option String
  createdAt : Int
  pubkey : String
deriving DecidableEq, Repr

/-- `validateScheduledPost(event)`: requires kind 36611, truthy `d`,
`scheduled_at` and `post_kind` tag values, and both `parseInt` results to be
non-`NaN` and positive. -/
def validateScheduledPost (e : NostrEvent) : Bool :=
  if e.kind != SCHEDULED_POST_KIND then false
  else if !(jsTruthyS (tagValue e "d") && jsTruthyS (tagValue e "scheduled_at")
            && jsTruthyS (tagValue e "post_kind")) then false
  else
    match jsParseInt ((tagValue e "scheduled_at").getD "") with
    | none => false
    | some ts =>
      if ts ≤ 0 then false
      else
        match jsParseInt ((tagValue e "post_kind").getD "") with
        | none => false
        | some k => !(k ≤ 0)

/-- JavaScript `x || dflt` for an optional string: `undefined` and `""` fall
back to the default. -/
def jsOrDefault (o : Option String) (dflt : String) : String :=
  match o with
  | none => dflt
  | some s => if s = "" then dflt else s

/-- `parseScheduledPost(event)`. -/
def parseScheduledPost (e : NostrEvent) : ScheduledPost :=
  let scheduledAtStr := jsOrDefault (tagValue e "scheduled_at") "0"
  let postKindStr := jsOrDefault (tagValue e "post_kind") "1"
  { id := e.id
    d := (tagValue e "d").getD ""
    content := e.content
    scheduledAt := (jsParseInt scheduledAtStr).map (fun t => t * 1000)
    postKind := jsParseInt postKindStr
    title := tagValue e "title"
    status := jsOrDefault (tagValue e "status") "scheduled"
    publishedEventId := tagValue e "published_event_id"
    createdAt := e.created_at * 1000
    pubkey := e.pubkey }

/-- The comparator `(a, b) => a.scheduledAt.getTime() - b.scheduledAt.getTime()`
(ascending).  It is only ever applied to validated posts, whose date is
always valid, so the `none` case is arbitrary (`getD 0`). -/
def schedAscRel (a b : ScheduledPost) : Prop :=
  a.scheduledAt.getD 0 ≤ b.scheduledAt.getD 0

instance : DecidableRel schedAscRel :=
  fun a b => Int.decLe (a.scheduledAt.getD 0) (b.scheduledAt.getD 0)

/-- The pure core of `useScheduledPosts`: validate, parse, and sort the
fetched events ascending by scheduled time (stable JavaScript sort). -/
def scheduledPostsView (events : List NostrEvent) : List ScheduledPost :=
  ((events.filter validateScheduledPost).map parseScheduledPost).insertionSort schedAscRel

/-! ## Scheduler loop (`useSchedulerService`, lock-manager variant) -/

/-- The candidate filter of `checkAndPublishPosts`: `isMyPost && isScheduled
&& isPastDue && isNotTooOld && hasValidDate && hasNoPublishedEventId &&
notAlreadyPublished`. -/
def shouldPublish (published : List PublishedPost) (userPubkey : String) (nowMs : Int)
    (post : ScheduledPost) : Bool :=
  let fiveMinutesAgo := nowMs - 5 * 60 * 1000
  let isMyPost := post.pubkey == userPubkey
  let isScheduled := post.status == "scheduled"
  let isPastDue := jsDateLe post.scheduledAt nowMs
  let isNotTooOld := jsDateGe post.scheduledAt fiveMinutesAgo
  let hasValidDate := post.scheduledAt.isSome
  let hasNoPublishedEventId := !(jsTruthyS post.publishedEventId)
  let notAlreadyPublished := !(jsTruthyS (isAlreadyPublished published post.id userPubkey))
  isMyPost && isScheduled && isPastDue && isNotTooOld && hasValidDate
    && hasNoPublishedEventId && notAlreadyPublished

/-- The scheduler's catch-block classifier: an error message indicates that
the post was already published (or is being published) elsewhere when it
contains one of three fixed substrings. -/
def errorIndicatesAlreadyPublished (msg : String) : Bool :=
  strIncludes msg "already published" || strIncludes msg "being published"
    || strIncludes msg "published event ID"

/-! ## Status updater (`useUpdateScheduledPostStatus`) and event builders -/

/-- An event handed to the publish primitive (`publishEvent`). -/
structure OutEvent where
  kind : Int
  content : String
  tags : List (List String)
deriving DecidableEq, Repr

/-- Second element of the first tag of `e` named `key`. -/
def outTagValue (e : OutEvent) (key : String) : Option String :=
  (e.tags.find? (fun t => t.head? == some key)).bind (fun t => t[1]?)

/-- `useUpdateScheduledPostStatus.mutationFn`: the revision event publishing
`newStatus` for `p`, preserving slug, scheduling tags, title (when truthy)
and the published-content reference (explicit argument first, else the
post's own, when truthy). -/
def updateStatusEvent (p : ScheduledPost) (newStatus : String)
    (publishedEventId : Option String) : OutEvent :=
  { kind := 36611
    content := p.content
    tags :=
      [["d", p.d],
       ["scheduled_at", jsFloorSecString p.scheduledAt],
       ["post_kind", jsIntString p.postKind],
       ["status", newStatus]]
      ++ (if jsTruthyS p.title then [["title", p.title.getD ""]] else [])
      ++ (if jsTruthyS publishedEventId then
            [["published_event_id", publishedEventId.getD ""]]
          else if jsTruthyS p.publishedEventId then
            [["published_event_id", p.publishedEventId.getD ""]]
          else []) }

/-- The scheduler's catch block, given the failed post and the error message:
`none` when the error is classified as already-published (the post is not
marked failed, no user-facing error); otherwise the Status Updater call that
marks the post `failed` (and a destructive toast is shown). -/
def schedulerCatch (post : ScheduledPost) (msg : String) : Option OutEvent :=
  if errorIndicatesAlreadyPublished msg then none
  else some (updateStatusEvent post "failed" none)

/-- The step-8 status-update revision built by the publish workflow: same
slug and scheduling tags, `status = published`, the new content identifier,
a `published_at` stamp, and the title when truthy; content is the original
encrypted payload. -/
def publishedStatusEvent (p : ScheduledPost) (newId : String) (nowMs : Int) : OutEvent :=
  { kind := 36611
    content := p.content
    tags :=
      [["d", p.d],
       ["scheduled_at", jsFloorSecString p.scheduledAt],
       ["post_kind", jsIntString p.postKind],
       ["status", "published"],
       ["published_event_id", newId],
       ["published_at", toString (Int.fdiv nowMs 1000)]]
      ++ (if jsTruthyS p.title then [["title", p.title.getD ""]] else []) }

/-! ## Publish workflow (`usePublishScheduledPost.ts`) -/

/-- One image of a decrypted draft payload. -/
structure DraftImage where
  url : String
  alt : Option String
  tags : List (List String)
deriving DecidableEq, Repr

/-- The decrypted draft payload. -/
structure DraftPost where
  kind : Int
  content : String
  tags : Option (List (List String))
  images : Option (List DraftImage)
deriving DecidableEq, Repr

/-- The shared lock-manager storage: lock list and published-posts cache. -/
structure MState where
  locks : List PublishingLock
  published : List PublishedPost
deriving DecidableEq, Repr

/-- External collaborators and clock readings of one workflow run:
the signed-in user, NIP-44 availability, the query-cache snapshot read in
step 3, the decrypt capability (`none` = decryption/JSON failure), the two
publish-capability outcomes, and the `Date.now()` values observed at lock
acquisition, lock re-verification, `markAsPublished` and the `published_at`
stamp. -/
structure WfEnv where
  userPubkey : Option String
  nip44 : Bool
  currentPosts : Option (List ScheduledPost)
  decrypt : String → Option DraftPost
  publishPrimary : Except String String
  publishStatus : Except String Unit
  nowLock : Int
  nowOwns : Int
  nowMark : Int
  nowStatusMs : Int

/-- Observable outcome of one workflow run: the returned value or thrown
error message, the final shared storage, the events handed to the publish
primitive (in order), the `markAsPublished` invocations `(postId, eventId)`,
and whether decryption was attempted. -/
structure WfOutput where
  result : Except String String
  state : MState
  emitted : List OutEvent
  markCalls : List (String × String)
  decryptTried : Bool
deriving Repr

/-- JavaScript `${key} ${value}` over a possibly short tag
(`undefined` renders as `"undefined"`). -/
def imetaPair (t : List String) : String :=
  (t[0]?.getD "undefined") ++ " " ++ (t[1]?.getD "undefined")

/-- Content/tag composition of steps 5-6: start from the draft, append image
locators to the content (when their joined string is truthy) and an `imeta`
tag per image that carries tags. -/
def composeDraft (draft : DraftPost) : String × List (List String) :=
  let finalTags := draft.tags.getD []
  match draft.images with
  | none => (draft.content, finalTags)
  | some imgs =>
    if imgs.length > 0 then
      let imageUrls := String.intercalate "\n\n" (imgs.map (fun i => i.url))
      let content := if imageUrls ≠ "" then draft.content ++ "\n\n" ++ imageUrls
        else draft.content
      let tags := imgs.foldl
        (fun acc img =>
          if img.tags.length > 0 then
            acc ++ [["imeta", String.intercalate " " (img.tags.map imetaPair)]]
          else acc)
        finalTags
      (content, tags)
    else (draft.content, finalTags)

/-- Steps 4-9 of `mutationFn` (the body of the `try` block after the
freshness re-check has selected `postToPublish`); the enclosing `finally`
is applied by `mutationFn` itself. -/
def wfSteps4to9 (env : WfEnv) (sid : String) (st : MState)
    (postToPublish : ScheduledPost) (postId userPubkey : String) : WfOutput :=
  let owns := ownsLock st.locks sid postId userPubkey env.nowOwns
  let st4 : MState := ⟨owns.2, st.published⟩
  if !owns.1 then
    ⟨.error "Lost publishing lock during verification", st4, [], [], false⟩
  else if !env.nip44 then
    ⟨.error "NIP-44 decryption not available. Please upgrade your signer.", st4, [], [], false⟩
  else
    match env.decrypt postToPublish.content with
    | none => ⟨.error "Failed to decrypt scheduled post content", st4, [], [], true⟩
    | some draft =>
      let composed := composeDraft draft
      let primaryEv : OutEvent := ⟨draft.kind, composed.1, composed.2⟩
      match env.publishPrimary with
      | .error msg => ⟨.error msg, st4, [primaryEv], [], true⟩
      | .ok newId =>
        let statusEv := publishedStatusEvent postToPublish newId env.nowStatusMs
        match env.publishStatus with
        | .error msg => ⟨.error msg, st4, [primaryEv, statusEv], [], true⟩
        | .ok _ =>
          let pub5 := markAsPublished st4.published postId newId userPubkey env.nowMark
          ⟨.ok newId, ⟨st4.locks, pub5⟩, [primaryEv, statusEv], [(postId, newId)], true⟩

/-- The body of the `try` block (steps 3-9): freshness re-check against the
query-cache snapshot, then `wfSteps4to9` on the freshest available post. -/
def wfTryBody (env : WfEnv) (sid : String) (st : MState)
    (scheduledPost : ScheduledPost) (userPubkey : String) : WfOutput :=
  let postId := scheduledPost.id
  let currentPost := env.currentPosts.bind (fun ps => ps.find? (fun p => p.id == postId))
  match currentPost with
  | some cp =>
    if cp.status == "published" then
      ⟨.error "Post status is already published",
       ⟨releaseLock st.locks sid postId userPubkey, st.published⟩, [], [], false⟩
    else if jsTruthyS cp.publishedEventId then
      let peid := cp.publishedEventId.getD ""
      ⟨.error ("Post already has published event ID: " ++ peid),
       ⟨releaseLock st.locks sid postId userPubkey,
        markAsPublished st.published postId peid userPubkey env.nowMark⟩,
       [], [(postId, peid)], false⟩
    else wfSteps4to9 env sid st cp postId userPubkey
  | none => wfSteps4to9 env sid st scheduledPost postId userPubkey

/-- `usePublishScheduledPost.mutationFn(scheduledPost)` run by session `sid`
from shared storage `st`: authentication guard, step 1 idempotence check,
step 2 lock acquisition, then the `try` body with its `finally` that always
releases the lock. -/
def mutationFn (env : WfEnv) (sid : String) (st : MState)
    (scheduledPost : ScheduledPost) : WfOutput :=
  match env.userPubkey with
  | none => ⟨.error "User not authenticated", st, [], [], false⟩
  | some userPubkey =>
    let postId := scheduledPost.id
    let already := isAlreadyPublished st.published postId userPubkey
    if jsTruthyS already then
      ⟨.error ("Post was already published as event " ++ already.getD ""), st, [], [], false⟩
    else
      let acq := acquireLock st.locks sid postId userPubkey env.nowLock
      if !acq.1 then
        ⟨.error "Post is being published by another session", ⟨acq.2, st.published⟩, [], [], false⟩
      else
        let body := wfTryBody env sid ⟨acq.2, st.published⟩ scheduledPost userPubkey
        ⟨body.result,
         ⟨releaseLock body.state.locks sid postId userPubkey, body.state.published⟩,
         body.emitted, body.markCalls, body.decryptTried⟩

/-! ## Spec-side predicates and auxiliary definitions -/

/-- Strict version of the descending-timestamp order (used to identify the
stable sort's output on timestamp-distinct inputs). -/
def tsDescLt (a b : PublishedPost) : Prop := b.timestamp < a.timestamp

instance : IsTrans PublishedPost tsDescRel := ⟨fun _ _ _ h1 h2 => le_trans h2 h1⟩

instance : IsTotal PublishedPost tsDescRel := ⟨fun a b => le_total b.timestamp a.timestamp⟩

instance : IsAntisymm PublishedPost tsDescLt :=
  ⟨fun _ _ h1 h2 => absurd (lt_trans h1 h2) (lt_irrefl _)⟩

instance : IsTrans ScheduledPost schedAscRel := ⟨fun _ _ _ h1 h2 => le_trans h1 h2⟩

instance : IsTotal ScheduledPost schedAscRel :=
  ⟨fun a b => le_total (a.scheduledAt.getD 0) (b.scheduledAt.getD 0)⟩

/-- Fold a sequence of `markAsPublished` insertions (each entry records the
call's arguments and its `Date.now()` timestamp) over a starting cache. -/
def foldMark (published : List PublishedPost) (entries : List PublishedPost) :
    List PublishedPost :=
  entries.foldl
    (fun c e => markAsPublished c e.postId e.publishedEventId e.pubkey e.timestamp)
    published

/-- The candidate condition exactly as claim C7 words it: owner matches,
status `scheduled`, scheduled instant valid and in `[now - 5min, now]`, and
no (truthy) published-content reference. -/
def specCandidate (userPubkey : String) (nowMs : Int) (post : ScheduledPost) : Prop :=
  post.pubkey = userPubkey ∧ post.status = "scheduled" ∧
  (∃ t, post.scheduledAt = some t ∧ t ≤ nowMs ∧ nowMs - 5 * 60 * 1000 ≤ t) ∧
  jsTruthyS post.publishedEventId = false

/-- Structural validity exactly as claim C8 words it: a non-missing `d`
slug, a present, numeric and positive `scheduled_at`, and a present,
numeric and positive `post_kind` (a missing tag and an empty value are both
"missing" under JavaScript truthiness). -/
def specValidRecord (e : NostrEvent) : Prop :=
  (∃ s, tagValue e "d" = some s ∧ s ≠ "") ∧
  (∃ s t, tagValue e "scheduled_at" = some s ∧ s ≠ "" ∧ jsParseInt s = some t ∧ 0 < t) ∧
  (∃ s k, tagValue e "post_kind" = some s ∧ s ≠ "" ∧ jsParseInt s = some k ∧ 0 < k)

/-! ## Theorems -/

theorem acquireLock_fst_true_iff (locks : List PublishingLock)
    (sid postId pubkey : String) (now : Int) :
    (acquireLock locks sid postId pubkey now).1 = true ↔
      ∀ l ∈ locks, now - l.timestamp ≤ LOCK_TIMEOUT → l.postId = postId →
        l.pubkey = pubkey → l.sessionId = sid := by
  unfold acquireLock
  cases h : (locks.filter (fun l => !(now - l.timestamp > LOCK_TIMEOUT : Bool))).find?
      (fun l => l.postId == postId && l.pubkey == pubkey && l.sessionId != sid) with
  | none =>
    simp only [h]
    constructor
    · intro _ l hl hv hpost hpk
      rw [List.find?_eq_none] at h
      by_contra hne
      exact h l (List.mem_filter.2 ⟨hl, by simp [hv, not_lt.2 hv]⟩)
        (by simp [hpost, hpk, hne])
    · intro _; trivial
  | some a =>
    simp only [h]
    constructor
    · intro hfalse; cases hfalse
    · intro hall
      have ha := List.mem_filter.1 (List.mem_of_find?_eq_some h)
      have hpa := List.find?_some h
      simp only [Bool.and_eq_true, beq_iff_eq, bne_iff_ne] at hpa
      have hv : now - a.timestamp ≤ LOCK_TIMEOUT := by
        have := ha.2
        simp only [Bool.not_eq_true', decide_eq_false_iff_not, not_lt] at this
        exact this
      exact absurd (hall a ha.1 hv hpa.1.1 hpa.1.2) hpa.2

theorem acquireLock_snd_of_true (locks : List PublishingLock)
    (sid postId pubkey : String) (now : Int)
    (h : (acquireLock locks sid postId pubkey now).1 = true) :
    (acquireLock locks sid postId pubkey now).2 =
      ((locks.filter (fun l => !(now - l.timestamp > LOCK_TIMEOUT : Bool))).filter
        (fun l => !(l.postId == postId && l.pubkey == pubkey && l.sessionId == sid)))
        ++ [⟨postId, now, sid, pubkey⟩] := by
  unfold acquireLock at h ⊢
  cases hf : (locks.filter (fun l => !(now - l.timestamp > LOCK_TIMEOUT : Bool))).find?
      (fun l => l.postId == postId && l.pubkey == pubkey && l.sessionId != sid) with
  | none => simp [hf]
  | some a => simp [hf] at h

theorem acquireLock_fst_false_of (locks : List PublishingLock)
    (sid postId pubkey : String) (now : Int) (l : PublishingLock)
    (hl : l ∈ locks) (hpost : l.postId = postId) (hpk : l.pubkey = pubkey)
    (hv : now - l.timestamp ≤ LOCK_TIMEOUT) (hs : l.sessionId ≠ sid) :
    acquireLock locks sid postId pubkey now = (false, locks) := by
  have : (acquireLock locks sid postId pubkey now).1 ≠ true := fun htr =>
    hs (((acquireLock_fst_true_iff locks sid postId pubkey now).1 htr) l hl hv hpost hpk)
  unfold acquireLock at this ⊢
  cases hf : (locks.filter (fun l => !(now - l.timestamp > LOCK_TIMEOUT : Bool))).find?
      (fun l => l.postId == postId && l.pubkey == pubkey && l.sessionId != sid) with
  | none => simp [hf] at this
  | some a => simp [hf]

theorem acquireAll_blocked (sids : List String) (locks : List PublishingLock)
    (postId pubkey : String) (now : Int) (l : PublishingLock)
    (hl : l ∈ locks) (hpost : l.postId = postId) (hpk : l.pubkey = pubkey)
    (hv : now - l.timestamp ≤ LOCK_TIMEOUT) (hs : ∀ s ∈ sids, l.sessionId ≠ s) :
    acquireAll locks sids postId pubkey now =
      (List.replicate sids.length false, locks) := by
  induction sids with
  | nil => rfl
  | cons s rest ih =>
    have h1 : acquireLock locks s postId pubkey now = (false, locks) :=
      acquireLock_fst_false_of locks s postId pubkey now l hl hpost hpk hv
        (hs s (List.mem_cons_self s rest))
    have h2 := ih (fun x hx => hs x (List.mem_cons_of_mem s hx))
    simp only [acquireAll, h1, h2, List.length_cons, List.replicate_succ]

/-- Claim C1: from a shared lock-storage state holding no non-expired lock
for the pair, N distinct sessions calling `acquireLock(postId, owner)` at
the same instant, applied sequentially, obtain exactly one `true` (the first
applied call) and `false` for all others; and a session that already holds
the (exclusive) non-expired lock always re-acquires successfully. -/
theorem C1_acquireLock_mutual_exclusion (locks : List PublishingLock)
    (postId pubkey : String) (now : Int) (sids : List String)
    (hne : sids ≠ []) (hnd : sids.Nodup)
    (hfree : ∀ l ∈ locks, l.postId = postId → l.pubkey = pubkey →
      LOCK_TIMEOUT < now - l.timestamp) :
    (acquireAll locks sids postId pubkey now).1 =
      true :: List.replicate (sids.length - 1) false
    ∧ ∀ (st : List PublishingLock) (sid : String),
        (∃ l ∈ st, l.postId = postId ∧ l.pubkey = pubkey ∧ l.sessionId = sid ∧
          now - l.timestamp ≤ LOCK_TIMEOUT) →
        (∀ l ∈ st, l.postId = postId → l.pubkey = pubkey →
          now - l.timestamp ≤ LOCK_TIMEOUT → l.sessionId = sid) →
        (acquireLock st sid postId pubkey now).1 = true := by
  constructor
  · cases sids with
    | nil => exact absurd rfl hne
    | cons s rest =>
      have hsucc : (acquireLock locks s postId pubkey now).1 = true := by
        rw [acquireLock_fst_true_iff]
        intro l hl hv hpost hpk
        exact absurd (hfree l hl hpost hpk) (not_lt.2 hv)
      have hsnd := acquireLock_snd_of_true locks s postId pubkey now hsucc
      have hmemNew : (⟨postId, now, s, pubkey⟩ : PublishingLock) ∈
          (acquireLock locks s postId pubkey now).2 := by
        rw [hsnd]; exact List.mem_append_right _ (List.mem_singleton.2 rfl)
      have hsnotin : s ∉ rest := (List.nodup_cons.1 hnd).1
      have hblocked := acquireAll_blocked rest (acquireLock locks s postId pubkey now).2
        postId pubkey now ⟨postId, now, s, pubkey⟩ hmemNew rfl rfl
        (by simp [LOCK_TIMEOUT])
        (fun x hx heq => hsnotin ((show s = x from heq) ▸ hx))
      simp only [acquireAll, hblocked, hsucc, List.length_cons, Nat.succ_sub_one]
  · intro st sid _ hexcl
    rw [acquireLock_fst_true_iff]
    exact fun l hl hv hpost hpk => hexcl l hl hpost hpk hv

theorem C1_witness :
    ((["a", "b", "c"] : List String) ≠ [] ∧ (["a", "b", "c"] : List String).Nodup) ∧
    (acquireAll [] ["a", "b", "c"] "p" "k" 0).1 = [true, false, false] :=
  ⟨⟨by decide, by decide⟩,
   (C1_acquireLock_mutual_exclusion [] "p" "k" 0 ["a", "b", "c"] (by decide) (by decide)
     (fun l hl => absurd hl (List.not_mem_nil l))).1⟩

/-- Claim C5: a lock acquired by session `sA` at `t0` and never released can
be acquired by a different session `sB` at any time strictly after
`t0 + LOCK_TIMEOUT`. -/
theorem C5_lock_expiry (locks : List PublishingLock) (sA sB postId pubkey : String)
    (t0 t : Int) (hAB : sB ≠ sA)
    (hacq : (acquireLock locks sA postId pubkey t0).1 = true)
    (ht : t0 + LOCK_TIMEOUT < t) :
    (acquireLock (acquireLock locks sA postId pubkey t0).2 sB postId pubkey t).1 = true := by
  rw [acquireLock_snd_of_true locks sA postId pubkey t0 hacq,
    acquireLock_fst_true_iff]
  intro l hl hv hpost hpk
  exfalso
  rcases List.mem_append.1 hl with hF | hNew
  · have h1 := List.mem_filter.1 hF
    have h2 := List.mem_filter.1 h1.1
    have hnot : ¬(l.postId = postId ∧ l.pubkey = pubkey ∧ l.sessionId = sA) := by
      have := h1.2
      simp only [Bool.not_eq_true', Bool.and_eq_false_iff, beq_eq_false_iff_ne, ne_eq] at this
      tauto
    have hval0 : t0 - l.timestamp ≤ LOCK_TIMEOUT := by
      have := h2.2
      simp only [Bool.not_eq_true', decide_eq_false_iff_not, not_lt] at this
      exact this
    exact hnot ⟨hpost, hpk,
      (acquireLock_fst_true_iff locks sA postId pubkey t0).1 hacq l h2.1 hval0 hpost hpk⟩
  · have hEq : l = ⟨postId, t0, sA, pubkey⟩ := List.mem_singleton.1 hNew
    rw [hEq] at hv
    simp only at hv
    omega

theorem C5_witness :
    ("b" ≠ "a" ∧ (acquireLock [] "a" "p" "k" 0).1 = true ∧
      (0 : Int) + LOCK_TIMEOUT < 300001) ∧
    (acquireLock (acquireLock [] "a" "p" "k" 0).2 "b" "p" "k" 300001).1 = true :=
  ⟨⟨by decide, by decide, by decide⟩,
   C5_lock_expiry [] "a" "b" "p" "k" 0 300001 (by decide) (by decide) (by decide)⟩

theorem PublishedPost.mk_eta (e : PublishedPost) :
    (⟨e.postId, e.publishedEventId, e.timestamp, e.pubkey⟩ : PublishedPost) = e := rfl

theorem foldMark_no_evict (E : List PublishedPost) :
    ∀ acc : List PublishedPost, (acc ++ E).length ≤ 1000 →
    (acc ++ E).Pairwise (fun a b => a.postId ≠ b.postId) →
    foldMark acc E = acc ++ E := by
  induction E with
  | nil => intro acc _ _; simp [foldMark]
  | cons e E ih =>
    intro acc hlen hids
    have hstep : markAsPublished acc e.postId e.publishedEventId e.pubkey e.timestamp
        = acc ++ [e] := by
      unfold markAsPublished
      have hfilt : acc.filter (fun p => !(p.postId == e.postId && p.pubkey == e.pubkey))
          = acc := by
        apply List.filter_eq_self.2
        intro p hp
        have hne : p.postId ≠ e.postId :=
          (List.pairwise_append.1 hids).2.2 p hp e (List.mem_cons_self _ _)
        simp [hne]
      rw [hfilt, PublishedPost.mk_eta]
      have hle : ¬ (acc ++ [e]).length > 1000 := by
        simp only [List.length_append, List.length_cons, List.length_nil] at hlen ⊢
        omega
      simp only [if_neg hle]
    have hfold : foldMark acc (e :: E)
        = foldMark (markAsPublished acc e.postId e.publishedEventId e.pubkey e.timestamp) E :=
      rfl
    rw [hfold, hstep]
    have h1 : ((acc ++ [e]) ++ E).length ≤ 1000 := by
      rw [List.append_assoc, List.singleton_append]; exact hlen
    have h2 : ((acc ++ [e]) ++ E).Pairwise (fun a b => a.postId ≠ b.postId) := by
      rw [List.append_assoc, List.singleton_append]; exact hids
    rw [ih (acc ++ [e]) h1 h2, List.append_assoc, List.singleton_append]

theorem sortTsDesc_strict_increasing (E : List PublishedPost)
    (hts : E.Pairwise (fun a b => a.timestamp < b.timestamp)) :
    sortTsDesc E = E.reverse := by
  have hperm : List.Perm (sortTsDesc E) E.reverse :=
    (List.perm_insertionSort tsDescRel E).trans E.reverse_perm.symm
  have hsorted1 : (sortTsDesc E).Pairwise tsDescRel :=
    List.sorted_insertionSort tsDescRel E
  have hmapE : (E.map PublishedPost.timestamp).Pairwise (fun a b => a ≠ b) :=
    List.pairwise_map.2 (hts.imp (fun h => ne_of_lt h))
  have hmapS : ((sortTsDesc E).map PublishedPost.timestamp).Pairwise (fun a b => a ≠ b) :=
    (((List.perm_insertionSort tsDescRel E).map PublishedPost.timestamp).nodup_iff).2 hmapE
  have hne : (sortTsDesc E).Pairwise (fun a b => a.timestamp ≠ b.timestamp) :=
    List.pairwise_map.1 hmapS
  have hsorted2 : (sortTsDesc E).Pairwise tsDescLt := by
    have hand := hsorted1.and hne
    exact hand.imp (fun h => lt_of_le_of_ne h.1 h.2.symm)
  have hrev : (E.reverse).Pairwise tsDescLt := by
    rw [List.pairwise_reverse]
    exact hts.imp (fun h => h)
  exact List.eq_of_perm_of_sorted hperm hsorted2 hrev

theorem reverse_take_of_len_succ {α : Type} (l : List α) (n : Nat)
    (h : l.length = n + 1) : l.reverse.take n = (l.drop 1).reverse := by
  cases l with
  | nil => simp at h
  | cons e0 l1 =>
    have h1 : l1.length = n := by simpa using h
    have h2 : l1.reverse.length = n := by simpa using h1
    simp only [List.reverse_cons, List.drop_succ_cons, List.drop_zero]
    rw [List.take_left' h2]

theorem foldMark_append (acc : List PublishedPost) (l1 l2 : List PublishedPost) :
    foldMark acc (l1 ++ l2) = foldMark (foldMark acc l1) l2 := by
  simp [foldMark, List.foldl_append]

/-- Claim C6: inserting 1001 entries with distinct post ids (at strictly
increasing `Date.now()` instants) into an empty published-cache leaves
exactly the 1000 most-recently-timestamped entries — the final cache is the
reversal of all but the first (oldest) insertion. -/
theorem C6_markAsPublished_cache_bound (E : List PublishedPost)
    (hlen : E.length = 1001)
    (hids : E.Pairwise (fun a b => a.postId ≠ b.postId))
    (hts : E.Pairwise (fun a b => a.timestamp < b.timestamp)) :
    foldMark [] E = (E.drop 1).reverse ∧ (foldMark [] E).length = 1000 ∧
      (∀ p, p ∈ foldMark [] E ↔ p ∈ E.drop 1) := by
  have hmain : foldMark [] E = (E.drop 1).reverse := by
    obtain ⟨z, hz⟩ : ∃ z, E.drop 1000 = [z] := by
      apply List.length_eq_one.1
      rw [List.length_drop, hlen]
    have hE : E = E.take 1000 ++ [z] := by
      conv_lhs => rw [← List.take_append_drop 1000 E]
      rw [hz]
    have hlenA : (E.take 1000).length = 1000 := by
      rw [List.length_take, hlen]
      omega
    have hpairA : (E.take 1000).Pairwise (fun a b => a.postId ≠ b.postId) :=
      hids.sublist (List.take_sublist 1000 E)
    have hfoldA : foldMark [] (E.take 1000) = E.take 1000 := by
      have := foldMark_no_evict (E.take 1000) [] (by simpa [hlenA]) (by simpa using hpairA)
      simpa using this
    have hfiltA : (E.take 1000).filter
        (fun p => !(p.postId == z.postId && p.pubkey == z.pubkey)) = E.take 1000 := by
      apply List.filter_eq_self.2
      intro p hp
      have hpair := hids
      rw [hE] at hpair
      have hne : p.postId ≠ z.postId :=
        (List.pairwise_append.1 hpair).2.2 p hp z (by simp)
      simp [hne]
    have hstep : foldMark [] E
        = markAsPublished (E.take 1000) z.postId z.publishedEventId z.pubkey z.timestamp := by
      conv_lhs => rw [hE]
      rw [foldMark_append, hfoldA]
      simp [foldMark]
    rw [hstep]
    unfold markAsPublished
    simp only [hfiltA, PublishedPost.mk_eta]
    rw [← hE]
    have hgt : E.length > 1000 := by omega
    rw [if_pos hgt, sortTsDesc_strict_increasing E hts,
      reverse_take_of_len_succ E 1000 (by omega)]
  refine ⟨hmain, ?_, ?_⟩
  · rw [hmain, List.length_reverse, List.length_drop, hlen]
  · intro p
    rw [hmain, List.mem_reverse]

theorem C6_witness :
    ((List.range 1001).map (fun i =>
      (⟨String.mk (List.replicate i 'a'), "e", (i : Int), "pk"⟩ : PublishedPost))).length = 1001 ∧
    ((List.range 1001).map (fun i =>
      (⟨String.mk (List.replicate i 'a'), "e", (i : Int), "pk"⟩ : PublishedPost))).Pairwise
        (fun a b => a.postId ≠ b.postId) ∧
    ((List.range 1001).map (fun i =>
      (⟨String.mk (List.replicate i 'a'), "e", (i : Int), "pk"⟩ : PublishedPost))).Pairwise
        (fun a b => a.timestamp < b.timestamp) ∧
    foldMark [] ((List.range 1001).map (fun i =>
      (⟨String.mk (List.replicate i 'a'), "e", (i : Int), "pk"⟩ : PublishedPost)))
      = ((((List.range 1001).map (fun i =>
          (⟨String.mk (List.replicate i 'a'), "e", (i : Int), "pk"⟩ : PublishedPost))).drop 1).reverse) := by
  have h1 : ((List.range 1001).map (fun i =>
      (⟨String.mk (List.replicate i 'a'), "e", (i : Int), "pk"⟩ : PublishedPost))).length = 1001 := by
    simp
  have h2 : ((List.range 1001).map (fun i =>
      (⟨String.mk (List.replicate i 'a'), "e", (i : Int), "pk"⟩ : PublishedPost))).Pairwise
        (fun a b => a.postId ≠ b.postId) := by
    apply List.pairwise_map.2
    apply (List.pairwise_lt_range 1001).imp
    intro i j hij heq
    have hlen := congrArg (fun s => s.data.length) heq
    simp at hlen
    omega
  have h3 : ((List.range 1001).map (fun i =>
      (⟨String.mk (List.replicate i 'a'), "e", (i : Int), "pk"⟩ : PublishedPost))).Pairwise
        (fun a b => a.timestamp < b.timestamp) := by
    apply List.pairwise_map.2
    apply (List.pairwise_lt_range 1001).imp
    intro i j hij
    exact (show (i : Int) < (j : Int) by exact_mod_cast hij)
  exact ⟨h1, h2, h3, (C6_markAsPublished_cache_bound _ h1 h2 h3).1⟩

theorem find?_append_of_none {α : Type} (p : α → Bool) (l1 l2 : List α)
    (h : l1.find? p = none) : (l1 ++ l2).find? p = l2.find? p := by
  induction l1 with
  | nil => rfl
  | cons a l ih =>
    cases hp : p a with
    | true =>
      rw [List.find?_cons_of_pos _ hp] at h
      cases h
    | false =>
      rw [List.find?_cons_of_neg _ (by simp [hp])] at h
      rw [List.cons_append, List.find?_cons_of_neg _ (by simp [hp])]
      exact ih h

/-- Claim C10 (amended): provided every prior cache entry carries a record
timestamp strictly earlier than the insertion instant, the lookup
immediately after `markAsPublished` returns exactly the newly recorded
identifier; and (for every prior state whatsoever) the updated cache holds
at most one entry for the pair. -/
theorem C10_markAsPublished_lookup (prior : List PublishedPost)
    (postId eventId pubkey : String) (now : Int)
    (hnewest : ∀ p ∈ prior, p.timestamp < now) :
    isAlreadyPublished (markAsPublished prior postId eventId pubkey now) postId pubkey
      = some eventId
    ∧ ∀ c : List PublishedPost,
        (markAsPublished c postId eventId pubkey now).countP
          (fun p => p.postId == postId && p.pubkey == pubkey) ≤ 1 := by
  constructor
  · unfold markAsPublished
    simp only []
    set filtered := prior.filter (fun p => !(p.postId == postId && p.pubkey == pubkey)) with hfdef
    set nw : PublishedPost := ⟨postId, eventId, now, pubkey⟩ with hnwdef
    have hfts : ∀ p ∈ filtered, p.timestamp < now :=
      fun p hp => hnewest p (List.mem_filter.1 hp).1
    have hfkey : ∀ p ∈ filtered, (p.postId == postId && p.pubkey == pubkey) = false :=
      fun p hp => by
        have h2 := (List.mem_filter.1 hp).2
        cases hx : (p.postId == postId && p.pubkey == pubkey) with
        | false => rfl
        | true => rw [hx] at h2; exact absurd h2 (by decide)
    by_cases hev : (filtered ++ [nw]).length > 1000
    · rw [if_pos hev]
      have hperm : List.Perm (sortTsDesc (filtered ++ [nw])) (filtered ++ [nw]) :=
        List.perm_insertionSort tsDescRel _
      have hsorted : (sortTsDesc (filtered ++ [nw])).Pairwise tsDescRel :=
        List.sorted_insertionSort tsDescRel _
      have hmemnw : nw ∈ sortTsDesc (filtered ++ [nw]) :=
        hperm.mem_iff.2 (List.mem_append_right _ (List.mem_singleton.2 rfl))
      cases hS : sortTsDesc (filtered ++ [nw]) with
      | nil => rw [hS] at hmemnw; cases hmemnw
      | cons s0 tl =>
        have hs0 : s0 = nw := by
          by_contra hne
          have hs0mem : s0 ∈ filtered ++ [nw] :=
            hperm.subset (hS ▸ List.mem_cons_self s0 tl)
          rcases List.mem_append.1 hs0mem with hf | hn
          · have hts0 : s0.timestamp < now := hfts s0 hf
            have hnwtl : nw ∈ tl := by
              rw [hS] at hmemnw
              rcases List.mem_cons.1 hmemnw with h | h
              · exact absurd h.symm hne
              · exact h
            have hpair := (List.pairwise_cons.1 (hS ▸ hsorted)).1 nw hnwtl
            have : now ≤ s0.timestamp := hpair
            omega
          · exact hne (List.mem_singleton.1 hn)
        have htake : List.take 1000 (s0 :: tl) = s0 :: List.take 999 tl := rfl
        rw [htake, hs0]
        unfold isAlreadyPublished
        rw [List.find?_cons_of_pos _ (by simp [hnwdef])]
        rfl
    · rw [if_neg hev]
      have hnone : filtered.find? (fun p => p.postId == postId && p.pubkey == pubkey)
          = none :=
        List.find?_eq_none.2 (fun x hx => by rw [hfkey x hx]; exact Bool.false_ne_true)
      unfold isAlreadyPublished
      rw [find?_append_of_none _ _ _ hnone]
      rw [List.find?_cons_of_pos _ (by simp [hnwdef])]
      rfl
  · intro c
    unfold markAsPublished
    simp only []
    set filtered := c.filter (fun p => !(p.postId == postId && p.pubkey == pubkey)) with hfdef
    set nw : PublishedPost := ⟨postId, eventId, now, pubkey⟩ with hnwdef
    have hc0 : filtered.countP (fun p => p.postId == postId && p.pubkey == pubkey) = 0 :=
      List.countP_eq_zero.2 (fun p hp => by
        have h2 := (List.mem_filter.1 hp).2
        intro heq
        rw [heq] at h2
        simp at h2)
    have hpush : (filtered ++ [nw]).countP
        (fun p => p.postId == postId && p.pubkey == pubkey) = 1 := by
      rw [List.countP_append, hc0]
      simp [hnwdef]
    by_cases hev : (filtered ++ [nw]).length > 1000
    · rw [if_pos hev]
      calc (List.take 1000 (sortTsDesc (filtered ++ [nw]))).countP
              (fun p => p.postId == postId && p.pubkey == pubkey)
          ≤ (sortTsDesc (filtered ++ [nw])).countP
              (fun p => p.postId == postId && p.pubkey == pubkey) :=
            (List.take_sublist _ _).countP_le _
        _ = 1 := by
            unfold sortTsDesc
            rw [(List.perm_insertionSort tsDescRel (filtered ++ [nw])).countP_eq]
            exact hpush
    · rw [if_neg hev, hpush]

set_option maxRecDepth 100000 in
theorem C10_counterexample :
    isAlreadyPublished
      (markAsPublished (List.replicate 1000 ⟨"q", "x", 1, "pk"⟩) "tgt" "e" "pk" 0)
      "tgt" "pk" = none := by decide

theorem C10_witness :
    (∀ p ∈ [(⟨"a", "old", 5, "pk"⟩ : PublishedPost)], p.timestamp < 10) ∧
    isAlreadyPublished
      (markAsPublished [(⟨"a", "old", 5, "pk"⟩ : PublishedPost)] "a" "e" "pk" 10)
      "a" "pk" = some "e" :=
  ⟨by decide,
   (C10_markAsPublished_lookup [(⟨"a", "old", 5, "pk"⟩ : PublishedPost)] "a" "e" "pk" 10
     (by decide)).1⟩

/-- Claim C7, counterexample: a post satisfying all six conditions of the
claim is nevertheless not selected when the lock manager's published-cache
holds a (truthy) entry for the (post id, owner) pair — the code's filter has
a seventh conjunct `notAlreadyPublished` the claim omits. -/
theorem C7_counterexample :
    specCandidate "u" 0
      ⟨"p1", "d1", "c", some 0, some 1, none, "scheduled", none, 0, "u"⟩ ∧
    shouldPublish [⟨"p1", "e1", 0, "u"⟩] "u" 0
      ⟨"p1", "d1", "c", some 0, some 1, none, "scheduled", none, 0, "u"⟩ = false := by
  constructor
  · exact ⟨rfl, rfl, ⟨0, rfl, by decide, by decide⟩, rfl⟩
  · decide

/-- Claim C7 (amended): a post is selected by the scheduler tick's filter iff
the six conditions of the claim hold *and* the published-cache lookup for
(post id, owner) is falsy; in particular (with an empty cache) a post with
`scheduledAt = now - 6min` is excluded and one with `scheduledAt = now - 4min`
is included. -/
theorem C7_candidate_filter :
    (∀ (published : List PublishedPost) (u : String) (now : Int) (p : ScheduledPost),
      shouldPublish published u now p = true ↔
        (specCandidate u now p ∧
         jsTruthyS (isAlreadyPublished published p.id u) = false)) ∧
    shouldPublish [] "u" 360000
      ⟨"p1", "d1", "c", some 0, some 1, none, "scheduled", none, 0, "u"⟩ = false ∧
    shouldPublish [] "u" 360000
      ⟨"p1", "d1", "c", some 120000, some 1, none, "scheduled", none, 0, "u"⟩ = true := by
  refine ⟨?_, by decide, by decide⟩
  intro published u now p
  cases hsa : p.scheduledAt with
  | none =>
    simp [shouldPublish, specCandidate, hsa, jsDateLe]
  | some t =>
    simp only [shouldPublish, specCandidate, hsa, jsDateLe, jsDateGe, Option.isSome_some,
      Bool.and_eq_true, beq_iff_eq, Bool.not_eq_true', Option.some.injEq]
    constructor
    · rintro ⟨⟨⟨⟨⟨⟨hmy, hst⟩, hdue⟩, hold⟩, -⟩, href⟩, hcache⟩
      exact ⟨⟨hmy, hst, ⟨t, rfl, by simpa using hdue, by simpa using hold⟩, href⟩, hcache⟩
    · rintro ⟨⟨hmy, hst, ⟨t2, ht2, hdue, hold⟩, href⟩, hcache⟩
      cases ht2
      exact ⟨⟨⟨⟨⟨⟨hmy, hst⟩, by simpa using hdue⟩, by simpa using hold⟩, trivial⟩, href⟩, hcache⟩

/-- Claim C8: for every fetched record list (all of the scheduled-post
kind), validation excludes exactly the structurally invalid records (missing
or non-positive or non-numeric `scheduled_at`, missing or non-positive
`post_kind`, missing `d`), the rest are parsed, and the view is a
permutation of the parsed records sorted ascending by scheduled instant. -/
theorem C8_record_store (events : List NostrEvent)
    (hkind : ∀ e ∈ events, e.kind = SCHEDULED_POST_KIND) :
    (∀ e ∈ events, (validateScheduledPost e = true ↔ specValidRecord e)) ∧
    List.Perm (scheduledPostsView events)
      ((events.filter validateScheduledPost).map parseScheduledPost) ∧
    (scheduledPostsView events).Pairwise schedAscRel := by
  refine ⟨?_, List.perm_insertionSort schedAscRel _, List.sorted_insertionSort schedAscRel _⟩
  intro e he
  have hk : (e.kind != SCHEDULED_POST_KIND) = false := by simp [hkind e he]
  unfold validateScheduledPost
  rw [hk]
  cases hd : tagValue e "d" with
  | none => simp [jsTruthyS, hd, specValidRecord]
  | some ds =>
    by_cases hds : ds = ""
    · simp [jsTruthyS, hd, hds, specValidRecord]
    · cases hsa : tagValue e "scheduled_at" with
      | none => simp [jsTruthyS, hd, hds, hsa, specValidRecord]
      | some sas =>
        by_cases hsas : sas = ""
        · simp [jsTruthyS, hd, hds, hsa, hsas, specValidRecord]
        · cases hpk : tagValue e "post_kind" with
          | none => simp [jsTruthyS, hd, hds, hsa, hsas, hpk, specValidRecord]
          | some pks =>
            by_cases hpks : pks = ""
            · simp [jsTruthyS, hd, hds, hsa, hsas, hpk, hpks, specValidRecord]
            · cases hts : jsParseInt sas with
              | none => simp [jsTruthyS, hd, hds, hsa, hsas, hpk, hpks, hts, specValidRecord]
              | some ts =>
                by_cases hts0 : ts ≤ 0
                · simp [jsTruthyS, hd, hds, hsa, hsas, hpk, hpks, hts, specValidRecord]
                  omega
                · cases htk : jsParseInt pks with
                  | none =>
                    simp [jsTruthyS, hd, hds, hsa, hsas, hpk, hpks, hts, htk, specValidRecord]
                  | some k =>
                    simp [jsTruthyS, hd, hds, hsa, hsas, hpk, hpks, hts, htk, specValidRecord]

theorem C8_witness :
    (∀ e ∈ [(⟨"i1", "pk", 1, 36611, [["d", "s1"], ["post_kind", "1"]], "c1"⟩ : NostrEvent),
            (⟨"i2", "pk", 2, 36611,
              [["d", "s2"], ["scheduled_at", "abc"], ["post_kind", "1"]], "c2"⟩ : NostrEvent),
            (⟨"i3", "pk", 3, 36611,
              [["d", "s3"], ["scheduled_at", "100"], ["post_kind", "1"]], "c3"⟩ : NostrEvent)],
        e.kind = SCHEDULED_POST_KIND) ∧
    (scheduledPostsView
      [(⟨"i1", "pk", 1, 36611, [["d", "s1"], ["post_kind", "1"]], "c1"⟩ : NostrEvent),
       (⟨"i2", "pk", 2, 36611,
         [["d", "s2"], ["scheduled_at", "abc"], ["post_kind", "1"]], "c2"⟩ : NostrEvent),
       (⟨"i3", "pk", 3, 36611,
         [["d", "s3"], ["scheduled_at", "100"], ["post_kind", "1"]], "c3"⟩ : NostrEvent)]).Pairwise
      schedAscRel :=
  ⟨by decide,
   (C8_record_store _ (by decide)).2.2⟩

theorem listIncludes_append_right (sub l1 l2 : List Char)
    (h : listIncludes sub l1 = true) : listIncludes sub (l1 ++ l2) = true := by
  induction l1 with
  | nil =>
    simp only [listIncludes, List.isEmpty_iff] at h
    subst h
    cases l2 with
    | nil => rfl
    | cons c r => simp [listIncludes, List.isPrefixOf]
  | cons c r ih =>
    simp only [listIncludes, Bool.or_eq_true] at h ⊢
    rcases h with h | h
    · left
      have hp : List.IsPrefix sub (c :: r) := List.isPrefixOf_iff_prefix.1 h
      exact List.isPrefixOf_iff_prefix.2 (hp.trans (List.prefix_append (c :: r) l2))
    · right
      exact ih h

theorem strIncludes_append_right (s t sub : String)
    (h : strIncludes s sub = true) : strIncludes (s ++ t) sub = true := by
  unfold strIncludes at h ⊢
  rw [String.data_append]
  exact listIncludes_append_right _ _ _ h

theorem releaseLock_no_own (locks : List PublishingLock) (sid postId pubkey : String) :
    ∀ l ∈ releaseLock locks sid postId pubkey,
      ¬(l.postId = postId ∧ l.pubkey = pubkey ∧ l.sessionId = sid) := by
  intro l hl h
  have h2 := (List.mem_filter.1 hl).2
  rw [h.1, h.2.1, h.2.2] at h2
  simp at h2

theorem acquireLock_eq_of_false (locks : List PublishingLock)
    (sid postId pubkey : String) (now : Int)
    (h : (acquireLock locks sid postId pubkey now).1 = false) :
    acquireLock locks sid postId pubkey now = (false, locks) := by
  unfold acquireLock at h ⊢
  cases hf : (locks.filter (fun l => !(now - l.timestamp > LOCK_TIMEOUT : Bool))).find?
      (fun l => l.postId == postId && l.pubkey == pubkey && l.sessionId != sid) with
  | none => simp [hf] at h
  | some a => simp [hf]

theorem mutationFn_no_own_lock (env : WfEnv) (sid : String) (st : MState)
    (sp : ScheduledPost) (pk : String) (huser : env.userPubkey = some pk)
    (hcache : jsTruthyS (isAlreadyPublished st.published sp.id pk) = false)
    (hacq : (acquireLock st.locks sid sp.id pk env.nowLock).1 = true) :
    ∀ l ∈ (mutationFn env sid st sp).state.locks,
      ¬(l.postId = sp.id ∧ l.pubkey = pk ∧ l.sessionId = sid) := by
  unfold mutationFn
  rw [huser]
  simp only [hcache, Bool.false_eq_true, if_false, hacq, Bool.not_true, if_false]
  exact releaseLock_no_own _ sid sp.id pk

theorem mutationFn_acquire_failed (env : WfEnv) (sid : String) (st : MState)
    (sp : ScheduledPost) (pk : String) (huser : env.userPubkey = some pk)
    (hcache : jsTruthyS (isAlreadyPublished st.published sp.id pk) = false)
    (hacq : (acquireLock st.locks sid sp.id pk env.nowLock).1 = false) :
    mutationFn env sid st sp =
      ⟨.error "Post is being published by another session", st, [], [], false⟩ := by
  unfold mutationFn
  rw [huser]
  simp only [hcache, Bool.false_eq_true, if_false,
    acquireLock_eq_of_false st.locks sid sp.id pk env.nowLock hacq]
  rfl

theorem mutationFn_step1_state (env : WfEnv) (sid : String) (st : MState)
    (sp : ScheduledPost) (pk : String) (huser : env.userPubkey = some pk)
    (hcache : jsTruthyS (isAlreadyPublished st.published sp.id pk) = true) :
    (mutationFn env sid st sp).state = st := by
  unfold mutationFn
  rw [huser]
  simp only [hcache, if_true]

/-- Claim C4 (amended): after a successful step-2 lock acquisition every
exit of the workflow — success or failure at any later step — leaves no lock
entry of the executing session for (post id, owner) in the shared storage
(the `finally` always releases); the step-1 idempotence exit and a *failed*
step-2 acquisition leave the storage exactly as it was. -/
theorem C4_always_release (env : WfEnv) (sid : String) (st : MState)
    (sp : ScheduledPost) (pk : String) (huser : env.userPubkey = some pk) :
    (jsTruthyS (isAlreadyPublished st.published sp.id pk) = false →
      (acquireLock st.locks sid sp.id pk env.nowLock).1 = true →
      ∀ l ∈ (mutationFn env sid st sp).state.locks,
        ¬(l.postId = sp.id ∧ l.pubkey = pk ∧ l.sessionId = sid)) ∧
    (jsTruthyS (isAlreadyPublished st.published sp.id pk) = false →
      (acquireLock st.locks sid sp.id pk env.nowLock).1 = false →
      mutationFn env sid st sp =
        ⟨.error "Post is being published by another session", st, [], [], false⟩) ∧
    (jsTruthyS (isAlreadyPublished st.published sp.id pk) = true →
      (mutationFn env sid st sp).state = st) :=
  ⟨fun hcache hacq => mutationFn_no_own_lock env sid st sp pk huser hcache hacq,
   fun hcache hacq => mutationFn_acquire_failed env sid st sp pk huser hcache hacq,
   fun hcache => mutationFn_step1_state env sid st sp pk huser hcache⟩

/-- Claim C4, counterexample: a run that fails at step 2 (lock held by
another session) performs no release at all — the `finally` is outside that
path — so a pre-existing non-expired lock entry of this very session (put
there by an external writer to the shared storage) is still held on exit. -/
theorem C4_counterexample :
    (mutationFn ⟨some "k", true, none, fun _ => none, .ok "x", .ok (), 0, 0, 0, 0⟩ "me"
        ⟨[⟨"p", 0, "other", "k"⟩, ⟨"p", 0, "me", "k"⟩], []⟩
        ⟨"p", "d", "c", some 0, some 1, none, "scheduled", none, 0, "k"⟩).result
      = .error "Post is being published by another session" ∧
    (⟨"p", 0, "me", "k"⟩ : PublishingLock) ∈
      (mutationFn ⟨some "k", true, none, fun _ => none, .ok "x", .ok (), 0, 0, 0, 0⟩ "me"
        ⟨[⟨"p", 0, "other", "k"⟩, ⟨"p", 0, "me", "k"⟩], []⟩
        ⟨"p", "d", "c", some 0, some 1, none, "scheduled", none, 0, "k"⟩).state.locks ∧
    (ownsLock
      (mutationFn ⟨some "k", true, none, fun _ => none, .ok "x", .ok (), 0, 0, 0, 0⟩ "me"
        ⟨[⟨"p", 0, "other", "k"⟩, ⟨"p", 0, "me", "k"⟩], []⟩
        ⟨"p", "d", "c", some 0, some 1, none, "scheduled", none, 0, "k"⟩).state.locks
      "me" "p" "k" 0).1 = true :=
  ⟨rfl, by decide, by decide⟩

theorem C4_witness :
    ((⟨some "k", true, none, fun _ => none, .ok "x", .ok (), 0, 0, 0, 0⟩ : WfEnv).userPubkey
        = some "k" ∧
      jsTruthyS (isAlreadyPublished ([] : List PublishedPost) "p" "k") = false ∧
      (acquireLock ([] : List PublishingLock) "me" "p" "k" 0).1 = true) ∧
    ∀ l ∈ (mutationFn ⟨some "k", true, none, fun _ => none, .ok "x", .ok (), 0, 0, 0, 0⟩ "me"
        ⟨[], []⟩ ⟨"p", "d", "c", some 0, some 1, none, "scheduled", none, 0, "k"⟩).state.locks,
      ¬(l.postId = "p" ∧ l.pubkey = "k" ∧ l.sessionId = "me") :=
  ⟨⟨rfl, by decide, by decide⟩,
   (C4_always_release ⟨some "k", true, none, fun _ => none, .ok "x", .ok (), 0, 0, 0, 0⟩ "me"
      ⟨[], []⟩ ⟨"p", "d", "c", some 0, some 1, none, "scheduled", none, 0, "k"⟩ "k" rfl).1
     (by decide) (by decide)⟩

/-- Claim C2 (amended): a `LockHeld` failure (acquireLock returned false)
throws the message "Post is being published by another session", which the
scheduler's catch classifies as already-published — the Status Updater is
not invoked and no user-facing error is raised.  A `LockLost` failure,
however, throws "Lost publishing lock during verification", whose message
contains none of the recognized substrings, so the scheduler DOES invoke the
Status Updater (`failed`) and surfaces the error; in general exactly the
messages failing `errorIndicatesAlreadyPublished` drive the transition. -/
theorem C2_scheduler_error_classification :
    (∀ (env : WfEnv) (sid : String) (st : MState) (sp : ScheduledPost) (pk : String),
      env.userPubkey = some pk →
      jsTruthyS (isAlreadyPublished st.published sp.id pk) = false →
      (acquireLock st.locks sid sp.id pk env.nowLock).1 = false →
      (mutationFn env sid st sp).result
          = .error "Post is being published by another session" ∧
        schedulerCatch sp "Post is being published by another session" = none) ∧
    (∀ sp : ScheduledPost,
      schedulerCatch sp "Lost publishing lock during verification"
        = some (updateStatusEvent sp "failed" none)) ∧
    (∀ (sp : ScheduledPost) (msg : String),
      schedulerCatch sp msg = none ↔ errorIndicatesAlreadyPublished msg = true) := by
  refine ⟨?_, ?_, ?_⟩
  · intro env sid st sp pk huser hcache hacq
    constructor
    · rw [mutationFn_acquire_failed env sid st sp pk huser hcache hacq]
    · unfold schedulerCatch
      rw [if_pos (by decide)]
  · intro sp
    unfold schedulerCatch
    rw [if_neg (by decide)]
  · intro sp msg
    unfold schedulerCatch
    by_cases h : errorIndicatesAlreadyPublished msg = true
    · simp [h]
    · simp [h]

/-- Claim C2, counterexample: a run that loses the lock between acquisition
and re-verification (clock advanced past the timeout) throws the `LockLost`
message, and the scheduler's catch block classifies it as a genuine failure:
the Status Updater IS invoked to mark the post `failed` (and the failure is
surfaced), contradicting the claim that LockLost is never surfaced. -/
theorem C2_counterexample :
    (mutationFn ⟨some "k", true, none, fun _ => none, .ok "x", .ok (), 0, 300001, 0, 0⟩ "me"
        ⟨[], []⟩ ⟨"p", "d", "c", some 0, some 1, none, "scheduled", none, 0, "k"⟩).result
      = .error "Lost publishing lock during verification" ∧
    schedulerCatch ⟨"p", "d", "c", some 0, some 1, none, "scheduled", none, 0, "k"⟩
        "Lost publishing lock during verification"
      = some (updateStatusEvent
          ⟨"p", "d", "c", some 0, some 1, none, "scheduled", none, 0, "k"⟩ "failed" none) :=
  ⟨rfl, by rw [schedulerCatch, if_neg (by decide)]⟩

theorem C2_witness :
    ((⟨some "k", true, none, fun _ => none, .ok "x", .ok (), 0, 0, 0, 0⟩ : WfEnv).userPubkey
        = some "k" ∧
      jsTruthyS (isAlreadyPublished ([] : List PublishedPost) "p" "k") = false ∧
      (acquireLock [⟨"p", 0, "other", "k"⟩] "me" "p" "k" 0).1 = false) ∧
    ((mutationFn ⟨some "k", true, none, fun _ => none, .ok "x", .ok (), 0, 0, 0, 0⟩ "me"
        ⟨[⟨"p", 0, "other", "k"⟩], []⟩
        ⟨"p", "d", "c", some 0, some 1, none, "scheduled", none, 0, "k"⟩).result
      = .error "Post is being published by another session" ∧
    schedulerCatch ⟨"p", "d", "c", some 0, some 1, none, "scheduled", none, 0, "k"⟩
      "Post is being published by another session" = none) :=
  ⟨⟨rfl, by decide, by decide⟩,
   C2_scheduler_error_classification.1
     ⟨some "k", true, none, fun _ => none, .ok "x", .ok (), 0, 0, 0, 0⟩ "me"
     ⟨[⟨"p", 0, "other", "k"⟩], []⟩
     ⟨"p", "d", "c", some 0, some 1, none, "scheduled", none, 0, "k"⟩ "k"
     rfl (by decide) (by decide)⟩

theorem mutationFn_after_acquire (env : WfEnv) (sid : String) (st : MState)
    (sp : ScheduledPost) (pk : String) (huser : env.userPubkey = some pk)
    (hcache : jsTruthyS (isAlreadyPublished st.published sp.id pk) = false)
    (hacq : (acquireLock st.locks sid sp.id pk env.nowLock).1 = true) :
    mutationFn env sid st sp =
      ⟨(wfTryBody env sid
          ⟨(acquireLock st.locks sid sp.id pk env.nowLock).2, st.published⟩ sp pk).result,
       ⟨releaseLock (wfTryBody env sid
            ⟨(acquireLock st.locks sid sp.id pk env.nowLock).2, st.published⟩ sp pk).state.locks
          sid sp.id pk,
        (wfTryBody env sid
          ⟨(acquireLock st.locks sid sp.id pk env.nowLock).2, st.published⟩ sp pk).state.published⟩,
       (wfTryBody env sid
         ⟨(acquireLock st.locks sid sp.id pk env.nowLock).2, st.published⟩ sp pk).emitted,
       (wfTryBody env sid
         ⟨(acquireLock st.locks sid sp.id pk env.nowLock).2, st.published⟩ sp pk).markCalls,
       (wfTryBody env sid
         ⟨(acquireLock st.locks sid sp.id pk env.nowLock).2, st.published⟩ sp pk).decryptTried⟩ := by
  unfold mutationFn
  rw [huser]
  simp only [hcache, Bool.false_eq_true, if_false, hacq, Bool.not_true, if_false]

theorem wfTryBody_status_published (env : WfEnv) (sid : String) (st2 : MState)
    (sp : ScheduledPost) (pk : String) (cp : ScheduledPost)
    (hfind : env.currentPosts.bind (fun ps => ps.find? (fun p => p.id == sp.id)) = some cp)
    (hpub : cp.status = "published") :
    wfTryBody env sid st2 sp pk =
      ⟨.error "Post status is already published",
       ⟨releaseLock st2.locks sid sp.id pk, st2.published⟩, [], [], false⟩ := by
  unfold wfTryBody
  simp only [hfind, hpub]
  simp

theorem wfTryBody_has_peid (env : WfEnv) (sid : String) (st2 : MState)
    (sp : ScheduledPost) (pk : String) (cp : ScheduledPost)
    (hfind : env.currentPosts.bind (fun ps => ps.find? (fun p => p.id == sp.id)) = some cp)
    (hnpub : cp.status ≠ "published") (hpeid : jsTruthyS cp.publishedEventId = true) :
    wfTryBody env sid st2 sp pk =
      ⟨.error ("Post already has published event ID: " ++ cp.publishedEventId.getD ""),
       ⟨releaseLock st2.locks sid sp.id pk,
        markAsPublished st2.published sp.id (cp.publishedEventId.getD "") pk env.nowMark⟩,
       [], [(sp.id, cp.publishedEventId.getD "")], false⟩ := by
  unfold wfTryBody
  simp only [hfind]
  rw [if_neg (by simp [hnpub]), if_pos hpeid]

/-- Claim C3 (amended): when the freshest known record for the post has
status `published` or carries a truthy published-content reference, the
workflow exits with an AlreadyPublished-classified error before attempting
decryption or any publish, holds no lock on exit, and — in the
published-reference case (the only case with a reference to copy) —
backfills the published-cache via `markAsPublished` with that reference.
Fresh records merely in status `failed` or `cancelled` do NOT trigger this
exit (see the counterexample). -/
theorem C3_freshness_recheck (env : WfEnv) (sid : String) (st : MState)
    (sp : ScheduledPost) (pk : String) (cp : ScheduledPost)
    (huser : env.userPubkey = some pk)
    (hcache : jsTruthyS (isAlreadyPublished st.published sp.id pk) = false)
    (hacq : (acquireLock st.locks sid sp.id pk env.nowLock).1 = true)
    (hfind : env.currentPosts.bind (fun ps => ps.find? (fun p => p.id == sp.id)) = some cp)
    (hterm : cp.status = "published" ∨ jsTruthyS cp.publishedEventId = true) :
    (∃ msg, (mutationFn env sid st sp).result = .error msg ∧
      errorIndicatesAlreadyPublished msg = true) ∧
    (mutationFn env sid st sp).emitted = [] ∧
    (mutationFn env sid st sp).decryptTried = false ∧
    (∀ l ∈ (mutationFn env sid st sp).state.locks,
      ¬(l.postId = sp.id ∧ l.pubkey = pk ∧ l.sessionId = sid)) ∧
    (cp.status ≠ "published" →
      (mutationFn env sid st sp).markCalls = [(sp.id, cp.publishedEventId.getD "")]) := by
  have hbase := mutationFn_after_acquire env sid st sp pk huser hcache hacq
  by_cases hpub : cp.status = "published"
  · have hbody := wfTryBody_status_published env sid
      ⟨(acquireLock st.locks sid sp.id pk env.nowLock).2, st.published⟩ sp pk cp hfind hpub
    rw [hbase, hbody]
    refine ⟨⟨"Post status is already published", rfl, by decide⟩, rfl, rfl,
      ?_, fun h => absurd hpub h⟩
    exact fun l hl => releaseLock_no_own _ sid sp.id pk l hl
  · have hpeid : jsTruthyS cp.publishedEventId = true := hterm.resolve_left hpub
    have hbody := wfTryBody_has_peid env sid
      ⟨(acquireLock st.locks sid sp.id pk env.nowLock).2, st.published⟩ sp pk cp hfind hpub hpeid
    rw [hbase, hbody]
    refine ⟨⟨"Post already has published event ID: " ++ cp.publishedEventId.getD "", rfl, ?_⟩,
      rfl, rfl, ?_, fun _ => rfl⟩
    · have hc : strIncludes ("Post already has published event ID: "
          ++ cp.publishedEventId.getD "") "published event ID" = true :=
        strIncludes_append_right _ _ _ (by decide)
      unfold errorIndicatesAlreadyPublished
      rw [hc, Bool.or_true]
    · exact fun l hl => releaseLock_no_own _ sid sp.id pk l hl

/-- Claim C3, counterexample: with a freshest record in the *terminal* state
`cancelled` (and no published-content reference) the workflow does not exit:
it decrypts, publishes the primary content and the status revision, and
returns success — refuting the claim for the terminal states `failed` and
`cancelled` (the code's step 3 only checks `status === 'published'`). -/
theorem C3_counterexample :
    ((⟨some "k", true,
        some [⟨"p", "d", "enc", some 1000, some 1, none, "cancelled", none, 0, "k"⟩],
        fun _ => some ⟨1, "hello", none, none⟩, .ok "nid", .ok (), 0, 0, 0, 0⟩ :
        WfEnv).currentPosts.bind (fun ps => ps.find? (fun p => p.id == "p")))
      = some ⟨"p", "d", "enc", some 1000, some 1, none, "cancelled", none, 0, "k"⟩ ∧
    (mutationFn
      ⟨some "k", true,
        some [⟨"p", "d", "enc", some 1000, some 1, none, "cancelled", none, 0, "k"⟩],
        fun _ => some ⟨1, "hello", none, none⟩, .ok "nid", .ok (), 0, 0, 0, 0⟩ "me" ⟨[], []⟩
      ⟨"p", "d", "enc", some 1000, some 1, none, "scheduled", none, 0, "k"⟩).result
      = .ok "nid" ∧
    (mutationFn
      ⟨some "k", true,
        some [⟨"p", "d", "enc", some 1000, some 1, none, "cancelled", none, 0, "k"⟩],
        fun _ => some ⟨1, "hello", none, none⟩, .ok "nid", .ok (), 0, 0, 0, 0⟩ "me" ⟨[], []⟩
      ⟨"p", "d", "enc", some 1000, some 1, none, "scheduled", none, 0, "k"⟩).decryptTried
      = true ∧
    (mutationFn
      ⟨some "k", true,
        some [⟨"p", "d", "enc", some 1000, some 1, none, "cancelled", none, 0, "k"⟩],
        fun _ => some ⟨1, "hello", none, none⟩, .ok "nid", .ok (), 0, 0, 0, 0⟩ "me" ⟨[], []⟩
      ⟨"p", "d", "enc", some 1000, some 1, none, "scheduled", none, 0, "k"⟩).emitted.length
      = 2 :=
  ⟨rfl, rfl, rfl, rfl⟩

theorem C3_witness :
    ((⟨some "k", true,
        some [⟨"p", "d", "enc", some 1000, some 1, none, "published", none, 0, "k"⟩],
        fun _ => none, .ok "x", .ok (), 0, 0, 0, 0⟩ : WfEnv).userPubkey = some "k" ∧
      jsTruthyS (isAlreadyPublished ([] : List PublishedPost) "p" "k") = false ∧
      (acquireLock ([] : List PublishingLock) "me" "p" "k" 0).1 = true ∧
      ((⟨some "k", true,
          some [⟨"p", "d", "enc", some 1000, some 1, none, "published", none, 0, "k"⟩],
          fun _ => none, .ok "x", .ok (), 0, 0, 0, 0⟩ :
          WfEnv).currentPosts.bind (fun ps => ps.find? (fun p => p.id == "p")))
        = some ⟨"p", "d", "enc", some 1000, some 1, none, "published", none, 0, "k"⟩) ∧
    (∃ msg, (mutationFn
        ⟨some "k", true,
          some [⟨"p", "d", "enc", some 1000, some 1, none, "published", none, 0, "k"⟩],
          fun _ => none, .ok "x", .ok (), 0, 0, 0, 0⟩ "me" ⟨[], []⟩
        ⟨"p", "d", "enc", some 1000, some 1, none, "scheduled", none, 0, "k"⟩).result
        = .error msg ∧
      errorIndicatesAlreadyPublished msg = true) :=
  ⟨⟨rfl, by decide, by decide, by decide⟩,
   (C3_freshness_recheck
      ⟨some "k", true,
        some [⟨"p", "d", "enc", some 1000, some 1, none, "published", none, 0, "k"⟩],
        fun _ => none, .ok "x", .ok (), 0, 0, 0, 0⟩ "me" ⟨[], []⟩
      ⟨"p", "d", "enc", some 1000, some 1, none, "scheduled", none, 0, "k"⟩ "k"
      ⟨"p", "d", "enc", some 1000, some 1, none, "published", none, 0, "k"⟩
      rfl (by decide) (by decide) (by decide) (Or.inl rfl)).1⟩

/-- Claim C9, counterexample: a post whose original record carries a
*present but empty* `title` tag (parsed as `some ""`) loses that tag in the
Status Updater's revision — JavaScript truthiness drops the empty title —
so the revision does not preserve every present title tag. -/
theorem C9_counterexample :
    (⟨"p", "d1", "enc", some 1000, some 1, some "", "scheduled", none, 0, "k"⟩ :
        ScheduledPost).title = some "" ∧
    outTagValue (updateStatusEvent
        ⟨"p", "d1", "enc", some 1000, some 1, some "", "scheduled", none, 0, "k"⟩
        "failed" none) "title" = none :=
  ⟨rfl, by decide⟩

/-- Claim C9 (amended): both status-revision builders — the workflow's
step-8 `published` revision and the Status Updater's revision — carry the
same `d` slug, a `scheduled_at` tag denoting the same scheduled instant
(its unix seconds) and a `post_kind` tag denoting the same kind as the
original record entity, preserve the encrypted payload verbatim as content,
preserve the title tag when it is truthy (nonempty), and the Status Updater
preserves a truthy existing published-content reference when no new one is
supplied. -/
theorem C9_status_revision_preservation (p : ScheduledPost) (newStatus : String)
    (peid : Option String) (newId : String) (nowMs : Int) (k : Int)
    (hsa : p.scheduledAt = some (1000 * k)) :
    ((publishedStatusEvent p newId nowMs).kind = 36611 ∧
     (publishedStatusEvent p newId nowMs).content = p.content ∧
     outTagValue (publishedStatusEvent p newId nowMs) "d" = some p.d ∧
     outTagValue (publishedStatusEvent p newId nowMs) "scheduled_at" = some (toString k) ∧
     outTagValue (publishedStatusEvent p newId nowMs) "post_kind"
       = some (jsIntString p.postKind) ∧
     outTagValue (publishedStatusEvent p newId nowMs) "status" = some "published" ∧
     outTagValue (publishedStatusEvent p newId nowMs) "published_event_id" = some newId ∧
     (jsTruthyS p.title = true →
       outTagValue (publishedStatusEvent p newId nowMs) "title" = p.title)) ∧
    ((updateStatusEvent p newStatus peid).kind = 36611 ∧
     (updateStatusEvent p newStatus peid).content = p.content ∧
     outTagValue (updateStatusEvent p newStatus peid) "d" = some p.d ∧
     outTagValue (updateStatusEvent p newStatus peid) "scheduled_at" = some (toString k) ∧
     outTagValue (updateStatusEvent p newStatus peid) "post_kind"
       = some (jsIntString p.postKind) ∧
     outTagValue (updateStatusEvent p newStatus peid) "status" = some newStatus ∧
     (jsTruthyS p.title = true →
       outTagValue (updateStatusEvent p newStatus peid) "title" = p.title) ∧
     (peid = none → jsTruthyS p.publishedEventId = true →
       outTagValue (updateStatusEvent p newStatus peid) "published_event_id"
         = p.publishedEventId)) := by
  have hsec : jsFloorSecString p.scheduledAt = toString k := by
    rw [hsa]
    show toString ((1000 * k).fdiv 1000) = toString k
    rw [Int.mul_fdiv_cancel_left k (by norm_num)]
  constructor
  · refine ⟨rfl, rfl, ?_, ?_, ?_, ?_, ?_, ?_⟩
    · simp [publishedStatusEvent, outTagValue, List.find?]
    · simp [publishedStatusEvent, outTagValue, List.find?, hsec]
    · simp [publishedStatusEvent, outTagValue, List.find?]
    · simp [publishedStatusEvent, outTagValue, List.find?]
    · simp [publishedStatusEvent, outTagValue, List.find?]
    · intro ht
      cases hpt : p.title with
      | none => rw [hpt] at ht; cases ht
      | some t =>
        rw [hpt] at ht
        have htt : t ≠ "" := by simpa [jsTruthyS] using ht
        simp [publishedStatusEvent, outTagValue, List.find?, hpt, jsTruthyS, htt]
  · refine ⟨rfl, rfl, ?_, ?_, ?_, ?_, ?_, ?_⟩
    · simp [updateStatusEvent, outTagValue, List.find?]
    · simp [updateStatusEvent, outTagValue, List.find?, hsec]
    · simp [updateStatusEvent, outTagValue, List.find?]
    · simp [updateStatusEvent, outTagValue, List.find?]
    · intro ht
      cases hpt : p.title with
      | none => rw [hpt] at ht; cases ht
      | some t =>
        rw [hpt] at ht
        have htt : t ≠ "" := by simpa [jsTruthyS] using ht
        simp [updateStatusEvent, outTagValue, List.find?, hpt, jsTruthyS, htt]
    · intro hpe ht
      cases hq : p.publishedEventId with
      | none => rw [hq] at ht; cases ht
      | some q =>
        rw [hq] at ht
        have hqq : q ≠ "" := by simpa [jsTruthyS] using ht
        subst hpe
        cases hpt : p.title with
        | none => simp [updateStatusEvent, outTagValue, List.find?, hq, hpt, jsTruthyS, hqq]
        | some t =>
          by_cases htt : t = ""
          · simp [updateStatusEvent, outTagValue, List.find?, hq, hpt, htt, jsTruthyS, hqq]
          · simp [updateStatusEvent, outTagValue, List.find?, hq, hpt, htt, jsTruthyS, hqq]

theorem C9_witness :
    ((⟨"p", "d1", "enc", some (1000 * 2), some 1, some "T", "scheduled", some "old", 0, "k"⟩ :
        ScheduledPost).scheduledAt = some (1000 * 2)) ∧
    outTagValue (updateStatusEvent
        ⟨"p", "d1", "enc", some (1000 * 2), some 1, some "T", "scheduled", some "old", 0, "k"⟩
        "failed" none) "scheduled_at" = some (toString (2 : Int)) ∧
    outTagValue (updateStatusEvent
        ⟨"p", "d1", "enc", some (1000 * 2), some 1, some "T", "scheduled", some "old", 0, "k"⟩
        "failed" none) "published_event_id" = some "old" :=
  ⟨rfl,
   (C9_status_revision_preservation
      ⟨"p", "d1", "enc", some (1000 * 2), some 1, some "T", "scheduled", some "old", 0, "k"⟩
      "failed" none "nid" 0 2 rfl).2.2.2.2.1,
   (C9_status_revision_preservation
      ⟨"p", "d1", "enc", some (1000 * 2), some 1, some "T", "scheduled", some "old", 0, "k"⟩
      "failed" none "nid" 0 2 rfl).2.2.2.2.2.2.2.2 rfl (by decide)⟩
